import Mathlib

/-!
The ipstack client (`client.go`): request building and response decoding.

A shallow embedding of `Client.Check` and `Client.CheckBulk`.

The two collaborators the client calls but does not implement are explicit:

* the HTTP transport (`c.httpClient.Get`), a function from the request URL to
  either a transport error or a response (status code and body);
* the JSON decoder (`json.NewDecoder(buf.Body).Decode(&v)`), which takes the
  body and the current value of the target and yields the value the target
  holds afterwards together with the error it returns, if any.

Every effect on the transport is recorded in a trace of events, in program
order: the GET, the decode of the body, and the close of the body.

The `Response` record type is a parameter `R` (its declaration is in another
file of the package); its zero value `Response{}` is `default`.
-/

namespace Ipstack

/-! ## Data model -/

/-- Error value returned by `http.Client.Get`, carrying its cause. -/
structure TransportError where
  cause : String
deriving DecidableEq, Repr

/-- Error value returned by `Decoder.Decode`. -/
inductive DecodeError where
  | eof
  | malformed
  | typeMismatch (value : String)
deriving DecidableEq, Repr

/-- Go `error` values that `Check` and `CheckBulk` can return, by origin:
built here with `fmt.Errorf`, handed back by the transport, or handed back by
the decoder. -/
inductive Error where
  | errorf (msg : String)
  | transport (e : TransportError)
  | decode (e : DecodeError)
deriving DecidableEq, Repr

/-- The part of `*http.Response` visible to the client. -/
structure HttpResponse (B : Type) where
  StatusCode : Nat
  Body : B

/-- Effects on the transport, in program order. -/
inductive Event where
  | httpGet (url : String)
  | decodeSlice
  | decodeStruct
  | bodyClose
deriving DecidableEq, Repr

/-- The collaborators of the client: the transport behind `httpClient.Get`
and `encoding/json` decoding into `*[]Response` and into `*Response`. -/
structure World (B R : Type) where
  Get : String → Except TransportError (HttpResponse B)
  DecodeSlice : B → List R → List R × Option DecodeError
  DecodeStruct : B → R → R × Option DecodeError

/-- The fields of `Client` other than the transport handle. -/
structure Client where
  httpsEnabled : Bool
  accessKey : String
deriving DecidableEq, Repr

/-- What a call of `CheckBulk` returns, and the effects it had. -/
structure BulkResult (R : Type) where
  responses : List R
  err : Option Error
  trace : List Event

/-- What a call of `Check` returns, and the effects it had. -/
structure CheckResult (R : Type) where
  response : Option R
  err : Option Error
  trace : List Event

/-! ## Formatting -/

/-- Substitution of the `%s` verbs of a format by the arguments, in order. -/
def sprintfAux : List Char → List String → List Char
  | [], _ => []
  | [c], _ => [c]
  | c :: d :: rest, args =>
    if c = '%' ∧ d = 's' then
      match args with
      | a :: args2 => a.data ++ sprintfAux rest args2
      | [] => "%!s(MISSING)".data ++ sprintfAux rest []
    else c :: sprintfAux (d :: rest) args

/-- The function `fmt.Sprintf` on formats whose only verb is `%s`, each with a
string argument. -/
def Sprintf (format : String) (args : List String) : String :=
  ⟨sprintfAux format.data args⟩

/-- The function `strings.Join`. -/
def Join : List String → String → String
  | [], _ => ""
  | [a], _ => a
  | a :: b :: rest, sep => a ++ sep ++ Join (b :: rest) sep

/-! ## Operations -/

/-- The method `Client.CheckBulk`. -/
def CheckBulk {B R : Type} [Inhabited R] (c : Client) (w : World B R)
    (ips : List String) : BulkResult R :=
  let responses : List R := []
  if ips.length ≤ 0 then
    ⟨responses, some (Error.errorf "ipstack: Client: no ips to check"), []⟩
  else
    let protocol := if c.httpsEnabled then "https://" else "http://"
    let url := Sprintf
      "%sapi.ipstack.com/%s?access_key=%s&hostname=1&language=en&output=json"
      [protocol, Join ips ",", c.accessKey]
    match w.Get url with
    | Except.error err =>
      ⟨responses, some (Error.transport err), [Event.httpGet url]⟩
    | Except.ok buf =>
      -- `defer buf.Body.Close()`: the close runs when the rest returns
      let rest : List R × Option Error × List Event :=
        if ips.length > 1 then
          match w.DecodeSlice buf.Body responses with
          | (responses, some err) =>
            (responses, some (Error.decode err), [Event.decodeSlice])
          | (responses, none) => (responses, none, [Event.decodeSlice])
        else
          match w.DecodeStruct buf.Body default with
          | (_, some err) =>
            (responses, some (Error.decode err), [Event.decodeStruct])
          | (r, none) => (responses ++ [r], none, [Event.decodeStruct])
      ⟨rest.1, rest.2.1, [Event.httpGet url] ++ rest.2.2 ++ [Event.bodyClose]⟩

/-- The method `Client.Check`. -/
def Check {B R : Type} [Inhabited R] (c : Client) (w : World B R)
    (ip : String) : CheckResult R :=
  let out := CheckBulk c w [ip]
  match out.err with
  | some err => ⟨none, some err, out.trace⟩
  | none =>
    if h : out.responses.length ≠ 1 then
      ⟨none, some (Error.errorf
        "ipstack: Client: check returned unexpected number of results"),
        out.trace⟩
    else
      ⟨some (out.responses.get ⟨0, by omega⟩), none, out.trace⟩

/-! ## A stub remote: parsed bodies and the behaviour of `encoding/json` -/

/-- Modelled from the spec: the declaration of `Response` is in a file of the
package that is not among the sources; the spec's scenario names the fields
`IP` and `Country`, read from the JSON keys `ip` and `country_name`. -/
structure Response where
  IP : String
  Country : String
deriving DecidableEq, Repr

instance : Inhabited Response := ⟨⟨"", ""⟩⟩

/-- A JSON value. -/
inductive JSON where
  | null
  | bool (b : Bool)
  | number (n : Int)
  | string (s : String)
  | array (elems : List JSON)
  | object (members : List (String × JSON))

/-- The name `encoding/json` gives a value's kind in an `UnmarshalTypeError`. -/
def JSON.kind : JSON → String
  | JSON.null => "null"
  | JSON.bool _ => "bool"
  | JSON.number _ => "number"
  | JSON.string _ => "string"
  | JSON.array _ => "array"
  | JSON.object _ => "object"

/-- A response body, as the decoder sees its first value: no bytes at all,
bytes that are not one well-formed JSON value, or a JSON value. -/
inductive Body where
  | empty
  | malformed
  | json (v : JSON)

/-- Object keys match field names without regard to letter case. -/
def foldKey (k : String) : List Char := k.data.map Char.toLower

/-- Storing one JSON value into a string field: a string is stored, `null`
leaves the field as it is, any other value is a type mismatch and the field
is skipped. -/
def storeString (old : String) (v : JSON) : String × Option DecodeError :=
  match v with
  | JSON.string s => (s, none)
  | JSON.null => (old, none)
  | JSON.bool _ => (old, some (DecodeError.typeMismatch "bool"))
  | JSON.number _ => (old, some (DecodeError.typeMismatch "number"))
  | JSON.array _ => (old, some (DecodeError.typeMismatch "array"))
  | JSON.object _ => (old, some (DecodeError.typeMismatch "object"))

/-- One member of a JSON object decoded into a `Response`; members whose key
matches no field are ignored. -/
def setField (r : Response) (k : String) (v : JSON) :
    Response × Option DecodeError :=
  if foldKey k = "ip".data then
    ({ r with IP := (storeString r.IP v).1 }, (storeString r.IP v).2)
  else if foldKey k = "country_name".data then
    ({ r with Country := (storeString r.Country v).1 },
      (storeString r.Country v).2)
  else (r, none)

/-- The earliest error is the one reported. -/
def firstError : Option DecodeError → Option DecodeError → Option DecodeError
  | some e, _ => some e
  | none, e => e

/-- The members of a JSON object decoded into a `Response`, in order; a type
mismatch is recorded and decoding goes on. -/
def decodeMembers : List (String × JSON) → Response →
    Response × Option DecodeError
  | [], r => (r, none)
  | (k, v) :: rest, r =>
    ((decodeMembers rest (setField r k v).1).1,
      firstError (setField r k v).2
        (decodeMembers rest (setField r k v).1).2)

/-- One JSON value decoded into a `Response`: an object fills the fields,
`null` changes nothing, any other value is a type mismatch. -/
def decodeValue (v : JSON) (r : Response) : Response × Option DecodeError :=
  match v with
  | JSON.object ms => decodeMembers ms r
  | JSON.null => (r, none)
  | JSON.bool _ => (r, some (DecodeError.typeMismatch "bool"))
  | JSON.number _ => (r, some (DecodeError.typeMismatch "number"))
  | JSON.string _ => (r, some (DecodeError.typeMismatch "string"))
  | JSON.array _ => (r, some (DecodeError.typeMismatch "array"))

/-- The elements of a JSON array decoded into a slice of `Response`: every
element is appended, decoded onto a zero record; a type mismatch in one
element is recorded and decoding goes on with the next. -/
def decodeElems : List JSON → List Response × Option DecodeError
  | [] => ([], none)
  | v :: rest =>
    ((decodeValue v default).1 :: (decodeElems rest).1,
      firstError (decodeValue v default).2 (decodeElems rest).2)

/-- The call `json.NewDecoder(body).Decode(&r)` for `r` a `Response`: the
value is read whole first, so an empty or malformed body leaves `r` as it
was. -/
def goDecodeStruct (b : Body) (r : Response) : Response × Option DecodeError :=
  match b with
  | Body.empty => (r, some DecodeError.eof)
  | Body.malformed => (r, some DecodeError.malformed)
  | Body.json v => decodeValue v r

/-- The call `json.NewDecoder(body).Decode(&rs)` for `rs` a `[]Response`: an
array resets the slice and appends each element, `null` sets the slice to
nil, any other value is a type mismatch. -/
def goDecodeSlice (b : Body) (rs : List Response) :
    List Response × Option DecodeError :=
  match b with
  | Body.empty => (rs, some DecodeError.eof)
  | Body.malformed => (rs, some DecodeError.malformed)
  | Body.json (JSON.array elems) => decodeElems elems
  | Body.json JSON.null => ([], none)
  | Body.json (JSON.bool _) => (rs, some (DecodeError.typeMismatch "bool"))
  | Body.json (JSON.number _) => (rs, some (DecodeError.typeMismatch "number"))
  | Body.json (JSON.string _) => (rs, some (DecodeError.typeMismatch "string"))
  | Body.json (JSON.object _) => (rs, some (DecodeError.typeMismatch "object"))

/-- A stub server that answers every request with one status and body. -/
def stubServer (status : Nat) (body : Body) : World Body Response where
  Get := fun _ => Except.ok ⟨status, body⟩
  DecodeSlice := goDecodeSlice
  DecodeStruct := goDecodeStruct

/-- A transport on which every request fails with the given cause. -/
def deadServer (cause : String) : World Body Response where
  Get := fun _ => Except.error ⟨cause⟩
  DecodeSlice := goDecodeSlice
  DecodeStruct := goDecodeStruct

/-- The client of the spec's scenarios: `NewClient("testkey", false, 5)`. -/
def testClient : Client := ⟨false, "testkey"⟩

/-! ## Reading results and traces -/

/-- The request URL in the spec's words: scheme, host, the comma-joined IP
list, then the query with the access key. -/
def requestURL (c : Client) (ips : List String) : String :=
  (if c.httpsEnabled then "https://" else "http://") ++ "api.ipstack.com/" ++
    ",".intercalate ips ++ "?access_key=" ++ c.accessKey ++
    "&hostname=1&language=en&output=json"

/-- The URLs of the GET requests of a trace, in order. -/
def getURLs : List Event → List String
  | [] => []
  | Event.httpGet url :: rest => url :: getURLs rest
  | _ :: rest => getURLs rest

/-- The decode event of a request of the given cardinality. -/
def decodeEvent (ips : List String) : Event :=
  if 1 < ips.length then Event.decodeSlice else Event.decodeStruct

/-! ## Lemmas on formatting -/

theorem intercalate_go_eq (sep : String) (rest : List String) :
    ∀ (acc b : String),
      String.intercalate.go acc sep (b :: rest) = acc ++ sep ++ Join (b :: rest) sep := by
  induction rest with
  | nil => intro acc b; simp [String.intercalate.go, Join]
  | cons d rest ih =>
    intro acc b
    rw [String.intercalate.go, ih, Join]
    simp [String.append_assoc]

theorem Join_eq_intercalate (ips : List String) (sep : String) :
    Join ips sep = sep.intercalate ips := by
  cases ips with
  | nil => simp [Join, String.intercalate]
  | cons a rest =>
    cases rest with
    | nil => simp [Join, String.intercalate, String.intercalate.go]
    | cons b rest =>
      rw [String.intercalate, intercalate_go_eq, Join]

theorem Sprintf_url (p j k : String) :
    Sprintf
      "%sapi.ipstack.com/%s?access_key=%s&hostname=1&language=en&output=json"
      [p, j, k]
      = p ++ "api.ipstack.com/" ++ j ++ "?access_key=" ++ k ++
        "&hostname=1&language=en&output=json" := by
  apply String.ext
  simp [Sprintf, sprintfAux]

theorem url_eq (c : Client) (ips : List String) :
    Sprintf
      "%sapi.ipstack.com/%s?access_key=%s&hostname=1&language=en&output=json"
      [if c.httpsEnabled then "https://" else "http://", Join ips ",",
        c.accessKey]
      = requestURL c ips := by
  rw [Sprintf_url, Join_eq_intercalate, requestURL]

/-! ## Lemmas on the paths of `CheckBulk` -/

section Paths

variable {B R : Type} [Inhabited R]

theorem CheckBulk_nil (c : Client) (w : World B R) :
    CheckBulk c w [] =
      ⟨[], some (Error.errorf "ipstack: Client: no ips to check"), []⟩ := by
  simp [CheckBulk]

theorem CheckBulk_get_error (c : Client) (w : World B R) (ips : List String)
    (e : TransportError) (hne : ips ≠ [])
    (hget : w.Get (requestURL c ips) = Except.error e) :
    CheckBulk c w ips =
      ⟨[], some (Error.transport e), [Event.httpGet (requestURL c ips)]⟩ := by
  have hlen : ¬ ips.length ≤ 0 := by
    cases ips with
    | nil => exact absurd rfl hne
    | cons a t => simp
  simp only [CheckBulk, hlen, if_false, url_eq, hget]

theorem CheckBulk_many (c : Client) (w : World B R) (ips : List String)
    (buf : HttpResponse B) (hlen : 1 < ips.length)
    (hget : w.Get (requestURL c ips) = Except.ok buf) :
    CheckBulk c w ips =
      ⟨(w.DecodeSlice buf.Body []).1,
        (w.DecodeSlice buf.Body []).2.map Error.decode,
        [Event.httpGet (requestURL c ips), Event.decodeSlice,
          Event.bodyClose]⟩ := by
  have h0 : ¬ ips.length ≤ 0 := by omega
  have h1 : ips.length > 1 := hlen
  simp only [CheckBulk, h0, if_false, url_eq, hget, h1, if_true]
  rcases hd : w.DecodeSlice buf.Body [] with ⟨rs, _ | e⟩ <;> simp

theorem CheckBulk_one (c : Client) (w : World B R) (ip : String)
    (buf : HttpResponse B)
    (hget : w.Get (requestURL c [ip]) = Except.ok buf) :
    CheckBulk c w [ip] =
      ⟨match (w.DecodeStruct buf.Body default).2 with
        | some _ => []
        | none => [(w.DecodeStruct buf.Body default).1],
        (w.DecodeStruct buf.Body default).2.map Error.decode,
        [Event.httpGet (requestURL c [ip]), Event.decodeStruct,
          Event.bodyClose]⟩ := by
  simp only [CheckBulk, url_eq, hget]
  rcases hd : w.DecodeStruct buf.Body default with ⟨r, _ | e⟩ <;> simp

end Paths

section Paths2

variable {B R : Type} [Inhabited R]

theorem Check_agrees_with_CheckBulk_trace (c : Client) (w : World B R)
    (ip : String) : (Check c w ip).trace = (CheckBulk c w [ip]).trace := by
  unfold Check
  simp only
  split
  · rfl
  · split <;> rfl

end Paths2

/-! ## The contract of `Check` and `CheckBulk` -/

section Claims

variable {B R : Type} [Inhabited R]

/-- C1: `CheckBulk` on an empty list of IPs returns the error "no ips to
check" together with an empty result list, and has no effect on the transport
at all: no GET, no decode, no close. -/
theorem CheckBulk_empty_input (c : Client) (w : World B R) :
    (CheckBulk c w []).err =
        some (Error.errorf "ipstack: Client: no ips to check") ∧
      (CheckBulk c w []).responses = [] ∧
      (CheckBulk c w []).trace = [] ∧
      getURLs (CheckBulk c w []).trace = [] := by
  simp [CheckBulk_nil, getURLs]

/-- C2: for every client, every remote and every non-empty list of IPs,
`CheckBulk` issues exactly one GET, and its URL is the scheme, then
`api.ipstack.com/`, then the IPs joined by commas in input order, then
`?access_key=`, the access key and `&hostname=1&language=en&output=json`; the
scheme is `https://` when `httpsEnabled` is set and `http://` otherwise. -/
theorem CheckBulk_single_get (c : Client) (w : World B R) (ips : List String)
    (hne : ips ≠ []) :
    getURLs (CheckBulk c w ips).trace =
      [(if c.httpsEnabled = true then "https://" else "http://") ++
        "api.ipstack.com/" ++ ",".intercalate ips ++ "?access_key=" ++
        c.accessKey ++ "&hostname=1&language=en&output=json"] := by
  have hurl : requestURL c ips =
      (if c.httpsEnabled = true then "https://" else "http://") ++
        "api.ipstack.com/" ++ ",".intercalate ips ++ "?access_key=" ++
        c.accessKey ++ "&hostname=1&language=en&output=json" := rfl
  rw [← hurl]
  rcases hget : w.Get (requestURL c ips) with e | buf
  · rw [CheckBulk_get_error c w ips e hne hget]
    simp [getURLs]
  · by_cases hlen : 1 < ips.length
    · rw [CheckBulk_many c w ips buf hlen hget]
      simp [getURLs]
    · obtain ⟨ip, rfl⟩ : ∃ ip, ips = [ip] := by
        match ips, hne, hlen with
        | [ip], _, _ => exact ⟨ip, rfl⟩
        | _ :: _ :: _, _, h => simp at h
      rw [CheckBulk_one c w ip buf hget]
      simp [getURLs]

/-- Witness of C2: two IPs against a stub server, over plain HTTP. -/
theorem CheckBulk_single_get_witness :
    (["1.2.3.4", "5.6.7.8"] : List String) ≠ [] ∧
    getURLs (CheckBulk testClient (stubServer 200 Body.empty)
        ["1.2.3.4", "5.6.7.8"]).trace =
      [(if testClient.httpsEnabled = true then "https://" else "http://") ++
        "api.ipstack.com/" ++ ",".intercalate ["1.2.3.4", "5.6.7.8"] ++
        "?access_key=" ++ testClient.accessKey ++
        "&hostname=1&language=en&output=json"] :=
  ⟨by decide,
    CheckBulk_single_get testClient (stubServer 200 Body.empty)
      ["1.2.3.4", "5.6.7.8"] (by decide)⟩

/-- C3, as stated, fails: one IP against a remote whose body is the single
JSON object with the member `ip` set to the number 5. The body has the shape
the claim asks for, yet the decoder reports a type mismatch, and `CheckBulk`
returns that error with an empty list instead of no error and one record. -/
theorem CheckBulk_object_shape_counterexample :
    ¬ ((CheckBulk testClient
          (stubServer 200 (Body.json (JSON.object
            [("ip", JSON.number 5)])))
          ["1.2.3.4"]).err = none ∧
        (CheckBulk testClient
          (stubServer 200 (Body.json (JSON.object
            [("ip", JSON.number 5)])))
          ["1.2.3.4"]).responses.length = 1) := by
  decide

/-- C3, amended: which decoding runs is decided by the number of IPs
requested. When more than one IP is requested and the decoder reads the body
as an array into N records for the N IPs without error, `CheckBulk` returns no
error and exactly those N records in the order of the array; when exactly one
IP is requested and the decoder reads the body as a single object into a
record without error, `CheckBulk` returns no error and the one-element list
holding that record. -/
theorem CheckBulk_decodes_by_cardinality (c : Client) (w : World B R)
    (ips : List String) (buf : HttpResponse B) (rs : List R)
    (hget : w.Get (requestURL c ips) = Except.ok buf)
    (hshape :
      (1 < ips.length ∧ w.DecodeSlice buf.Body [] = (rs, none) ∧
        rs.length = ips.length) ∨
      (ips.length = 1 ∧
        ∃ r, w.DecodeStruct buf.Body default = (r, none) ∧ rs = [r])) :
    (CheckBulk c w ips).err = none ∧ (CheckBulk c w ips).responses = rs ∧
      (CheckBulk c w ips).responses.length = ips.length := by
  rcases hshape with ⟨hlen, hdec, hn⟩ | ⟨hlen, r, hdec, rfl⟩
  · rw [CheckBulk_many c w ips buf hlen hget, hdec]
    simp [hn]
  · obtain ⟨ip, rfl⟩ : ∃ ip, ips = [ip] := by
      match ips, hlen with
      | [ip], _ => exact ⟨ip, rfl⟩
    rw [CheckBulk_one c w ip buf hget, hdec]
    simp

/-- Witness of C3 amended, the spec's scenario: two IPs against a stub
returning an array of two objects yield the two records in that order. -/
theorem CheckBulk_decodes_by_cardinality_witness :
    (CheckBulk testClient
        (stubServer 200 (Body.json (JSON.array
          [JSON.object [("ip", JSON.string "1.2.3.4")],
            JSON.object [("ip", JSON.string "5.6.7.8")]])))
        ["1.2.3.4", "5.6.7.8"]).err = none ∧
    (CheckBulk testClient
        (stubServer 200 (Body.json (JSON.array
          [JSON.object [("ip", JSON.string "1.2.3.4")],
            JSON.object [("ip", JSON.string "5.6.7.8")]])))
        ["1.2.3.4", "5.6.7.8"]).responses =
      [⟨"1.2.3.4", ""⟩, ⟨"5.6.7.8", ""⟩] ∧
    (CheckBulk testClient
        (stubServer 200 (Body.json (JSON.array
          [JSON.object [("ip", JSON.string "1.2.3.4")],
            JSON.object [("ip", JSON.string "5.6.7.8")]])))
        ["1.2.3.4", "5.6.7.8"]).responses.length =
      (["1.2.3.4", "5.6.7.8"] : List String).length :=
  CheckBulk_decodes_by_cardinality testClient
    (stubServer 200 (Body.json (JSON.array
      [JSON.object [("ip", JSON.string "1.2.3.4")],
        JSON.object [("ip", JSON.string "5.6.7.8")]])))
    ["1.2.3.4", "5.6.7.8"]
    ⟨200, Body.json (JSON.array
      [JSON.object [("ip", JSON.string "1.2.3.4")],
        JSON.object [("ip", JSON.string "5.6.7.8")]])⟩
    [⟨"1.2.3.4", ""⟩, ⟨"5.6.7.8", ""⟩]
    rfl (Or.inl ⟨by decide, rfl, rfl⟩)

/-- C4: for every IP and every remote, `Check` fails exactly when `CheckBulk`
on the one-element list fails, and with the same error; when `CheckBulk`
succeeds its result is a single record and `Check` returns that record; when
it fails `Check` returns no record. The effects of the two calls are the
same. -/
theorem Check_agrees_with_CheckBulk (c : Client) (w : World B R) (ip : String) :
    (Check c w ip).err = (CheckBulk c w [ip]).err ∧
      ((CheckBulk c w [ip]).err = none →
        ∃ r, (CheckBulk c w [ip]).responses = [r] ∧
          (Check c w ip).response = some r) ∧
      ((CheckBulk c w [ip]).err ≠ none → (Check c w ip).response = none) ∧
      (Check c w ip).trace = (CheckBulk c w [ip]).trace := by
  rcases hget : w.Get (requestURL c [ip]) with e | buf
  · have hb := CheckBulk_get_error c w [ip] e (by simp) hget
    simp [Check, hb]
  · have hb := CheckBulk_one c w ip buf hget
    rcases hd : (w.DecodeStruct buf.Body default).2 with _ | e
    · rw [hd] at hb
      simp [Check, hb]
    · rw [hd] at hb
      simp [Check, hb]

/-- The spec's scenario for `Check`: against a stub server returning the
object with `ip` and `country_name`, the record holds both, with no error. -/
theorem Check_testland :
    (Check testClient
        (stubServer 200 (Body.json (JSON.object
          [("ip", JSON.string "1.2.3.4"),
            ("country_name", JSON.string "Testland")])))
        "1.2.3.4").response = some ⟨"1.2.3.4", "Testland"⟩ ∧
    (Check testClient
        (stubServer 200 (Body.json (JSON.object
          [("ip", JSON.string "1.2.3.4"),
            ("country_name", JSON.string "Testland")])))
        "1.2.3.4").err = none := by
  decide

/-- C5, as stated, fails: two distinct IPs against a remote whose array holds
one object give a successful call with one record, not two. -/
theorem CheckBulk_count_counterexample :
    ¬ ((CheckBulk testClient
          (stubServer 200 (Body.json (JSON.array
            [JSON.object [("ip", JSON.string "1.2.3.4")]])))
          ["1.2.3.4", "5.6.7.8"]).err = none →
        (CheckBulk testClient
          (stubServer 200 (Body.json (JSON.array
            [JSON.object [("ip", JSON.string "1.2.3.4")]])))
          ["1.2.3.4", "5.6.7.8"]).responses.length =
          (["1.2.3.4", "5.6.7.8"] : List String).dedup.length) := by
  decide

/-- C5, amended: for every non-empty input list and every remote response for
which `CheckBulk` returns no error, the result is what the decoder produced
from the body: one record when exactly one IP was submitted, and otherwise
the records of the response array in array order, so the number of records is
the number the decoder read from the array. -/
theorem CheckBulk_count_is_decoded_count (c : Client) (w : World B R)
    (ips : List String) (hne : ips ≠ [])
    (hok : (CheckBulk c w ips).err = none) :
    ∃ buf, w.Get (requestURL c ips) = Except.ok buf ∧
      (ips.length = 1 →
        (CheckBulk c w ips).responses =
            [(w.DecodeStruct buf.Body default).1] ∧
          (CheckBulk c w ips).responses.length = 1) ∧
      (1 < ips.length →
        (CheckBulk c w ips).responses = (w.DecodeSlice buf.Body []).1 ∧
          (CheckBulk c w ips).responses.length =
            (w.DecodeSlice buf.Body []).1.length) := by
  rcases hget : w.Get (requestURL c ips) with e | buf
  · rw [CheckBulk_get_error c w ips e hne hget] at hok
    simp at hok
  · refine ⟨buf, rfl, ?_, ?_⟩
    · intro hlen
      obtain ⟨ip, rfl⟩ : ∃ ip, ips = [ip] := by
        match ips, hlen with
        | [ip], _ => exact ⟨ip, rfl⟩
      rw [CheckBulk_one c w ip buf hget] at hok ⊢
      rcases hd : (w.DecodeStruct buf.Body default).2 with _ | e
      · simp
      · rw [hd] at hok
        simp at hok
    · intro hlen
      rw [CheckBulk_many c w ips buf hlen hget]
      simp

/-- Witness of C5 amended: the remote of the counterexample; the one record
of its array is the whole result. -/
theorem CheckBulk_count_is_decoded_count_witness :
    ∃ buf, (stubServer 200 (Body.json (JSON.array
          [JSON.object [("ip", JSON.string "1.2.3.4")]]))).Get
        (requestURL testClient ["1.2.3.4", "5.6.7.8"]) = Except.ok buf ∧
      (["1.2.3.4", "5.6.7.8"].length = 1 →
        (CheckBulk testClient
            (stubServer 200 (Body.json (JSON.array
              [JSON.object [("ip", JSON.string "1.2.3.4")]])))
            ["1.2.3.4", "5.6.7.8"]).responses =
            [(goDecodeStruct buf.Body default).1] ∧
          (CheckBulk testClient
            (stubServer 200 (Body.json (JSON.array
              [JSON.object [("ip", JSON.string "1.2.3.4")]])))
            ["1.2.3.4", "5.6.7.8"]).responses.length = 1) ∧
      (1 < ["1.2.3.4", "5.6.7.8"].length →
        (CheckBulk testClient
            (stubServer 200 (Body.json (JSON.array
              [JSON.object [("ip", JSON.string "1.2.3.4")]])))
            ["1.2.3.4", "5.6.7.8"]).responses =
            (goDecodeSlice buf.Body []).1 ∧
          (CheckBulk testClient
            (stubServer 200 (Body.json (JSON.array
              [JSON.object [("ip", JSON.string "1.2.3.4")]])))
            ["1.2.3.4", "5.6.7.8"]).responses.length =
            (goDecodeSlice buf.Body []).1.length) :=
  CheckBulk_count_is_decoded_count testClient
    (stubServer 200 (Body.json (JSON.array
      [JSON.object [("ip", JSON.string "1.2.3.4")]])))
    ["1.2.3.4", "5.6.7.8"] (by decide) (by decide)

/-- C6, at the input where the code departs from it: two IPs, and a body
whose array holds an object and then a number. Decoding reports a type
mismatch, and `CheckBulk` returns that error together with the two records
the decoder had stored, not an empty list. -/
theorem CheckBulk_decode_error_keeps_records :
    (CheckBulk testClient
        (stubServer 200 (Body.json (JSON.array
          [JSON.object [("ip", JSON.string "1.2.3.4")], JSON.number 5])))
        ["1.2.3.4", "5.6.7.8"]).err =
      some (Error.decode (DecodeError.typeMismatch "number")) ∧
    (CheckBulk testClient
        (stubServer 200 (Body.json (JSON.array
          [JSON.object [("ip", JSON.string "1.2.3.4")], JSON.number 5])))
        ["1.2.3.4", "5.6.7.8"]).responses =
      [⟨"1.2.3.4", ""⟩, ⟨"", ""⟩] := by
  decide

/-- The part of the decode-failure contract that holds: with exactly one IP,
a failed decode makes `CheckBulk` return the decoder's error with an empty
list, and `Check` return it with no record. -/
theorem decode_error_single_returns_nothing (c : Client) (w : World B R)
    (ip : String) (buf : HttpResponse B) (r : R) (e : DecodeError)
    (hget : w.Get (requestURL c [ip]) = Except.ok buf)
    (hdec : w.DecodeStruct buf.Body default = (r, some e)) :
    (CheckBulk c w [ip]).err = some (Error.decode e) ∧
      (CheckBulk c w [ip]).responses = [] ∧
      (Check c w ip).err = some (Error.decode e) ∧
      (Check c w ip).response = none := by
  have hb := CheckBulk_one c w ip buf hget
  rw [hdec] at hb
  simp [Check, hb]

/-- C7: when the GET fails at the transport, `CheckBulk` on a non-empty list
returns the transport's error and an empty result list, and its only effect
is the GET: nothing is decoded and nothing is closed. `Check` returns the
same error and no record. -/
theorem transport_error_is_returned (c : Client) (w : World B R)
    (ips : List String) (e : TransportError) (hne : ips ≠ [])
    (hget : w.Get (requestURL c ips) = Except.error e) :
    (CheckBulk c w ips).err = some (Error.transport e) ∧
      (CheckBulk c w ips).responses = [] ∧
      (CheckBulk c w ips).trace = [Event.httpGet (requestURL c ips)] ∧
      ∀ ip, ips = [ip] →
        (Check c w ip).err = some (Error.transport e) ∧
          (Check c w ip).response = none ∧
          (Check c w ip).trace = [Event.httpGet (requestURL c ips)] := by
  have hb := CheckBulk_get_error c w ips e hne hget
  refine ⟨by rw [hb], by rw [hb], by rw [hb], ?_⟩
  intro ip hip
  subst hip
  simp [Check, hb]

/-- Witness of C7: a transport on which the connection times out. -/
theorem transport_error_is_returned_witness :
    (CheckBulk testClient (deadServer "timeout") ["1.2.3.4"]).err =
        some (Error.transport ⟨"timeout"⟩) ∧
      (CheckBulk testClient (deadServer "timeout") ["1.2.3.4"]).responses =
        [] ∧
      (CheckBulk testClient (deadServer "timeout") ["1.2.3.4"]).trace =
        [Event.httpGet (requestURL testClient ["1.2.3.4"])] ∧
      ∀ ip, ["1.2.3.4"] = [ip] →
        (Check testClient (deadServer "timeout") ip).err =
            some (Error.transport ⟨"timeout"⟩) ∧
          (Check testClient (deadServer "timeout") ip).response = none ∧
          (Check testClient (deadServer "timeout") ip).trace =
            [Event.httpGet (requestURL testClient ["1.2.3.4"])] :=
  transport_error_is_returned testClient (deadServer "timeout") ["1.2.3.4"]
    ⟨"timeout"⟩ (by decide) rfl

/-- C8: whenever the GET returned a response, the trace of `CheckBulk` is the
GET, then the one decode chosen by the number of IPs, then the close of the
body: the body is closed exactly once, after the decode, whether the decode
succeeded or failed. `Check` has the same trace. -/
theorem body_closed_once (c : Client) (w : World B R) (ips : List String)
    (buf : HttpResponse B) (hne : ips ≠ [])
    (hget : w.Get (requestURL c ips) = Except.ok buf) :
    (CheckBulk c w ips).trace =
        [Event.httpGet (requestURL c ips), decodeEvent ips,
          Event.bodyClose] ∧
      (CheckBulk c w ips).trace.count Event.bodyClose = 1 ∧
      ∀ ip, ips = [ip] →
        (Check c w ip).trace =
            [Event.httpGet (requestURL c ips), Event.decodeStruct,
              Event.bodyClose] ∧
          (Check c w ip).trace.count Event.bodyClose = 1 := by
  by_cases hlen : 1 < ips.length
  · rw [CheckBulk_many c w ips buf hlen hget]
    refine ⟨by simp [decodeEvent, hlen], by simp, ?_⟩
    intro ip hip
    subst hip
    simp at hlen
  · obtain ⟨ip, rfl⟩ : ∃ ip, ips = [ip] := by
      match ips, hne, hlen with
      | [ip], _, _ => exact ⟨ip, rfl⟩
      | _ :: _ :: _, _, h => simp at h
    have hb := CheckBulk_one c w ip buf hget
    have ht := (Check_agrees_with_CheckBulk_trace c w ip)
    rw [hb] at ht ⊢
    refine ⟨by simp [decodeEvent], by simp, ?_⟩
    intro ip2 hip
    cases hip
    rw [ht]
    exact ⟨rfl, by simp⟩

/-- Witness of C8: a malformed body, so the decode fails, and the body is
closed all the same. -/
theorem body_closed_once_witness :
    (CheckBulk testClient (stubServer 200 Body.malformed)
        ["1.2.3.4"]).trace =
        [Event.httpGet (requestURL testClient ["1.2.3.4"]),
          decodeEvent ["1.2.3.4"], Event.bodyClose] ∧
      (CheckBulk testClient (stubServer 200 Body.malformed)
        ["1.2.3.4"]).trace.count Event.bodyClose = 1 ∧
      ∀ ip, ["1.2.3.4"] = [ip] →
        (Check testClient (stubServer 200 Body.malformed) ip).trace =
            [Event.httpGet (requestURL testClient ["1.2.3.4"]),
              Event.decodeStruct, Event.bodyClose] ∧
          (Check testClient (stubServer 200 Body.malformed) ip).trace.count
            Event.bodyClose = 1 :=
  body_closed_once testClient (stubServer 200 Body.malformed) ["1.2.3.4"]
    ⟨200, Body.malformed⟩ (by decide) rfl

/-- C9: the status code is never read. For every non-empty list of IPs, two
remotes that decode alike and answer the request with the same body under
different status codes make `CheckBulk` return the same result list and the
same error, with the same effects. -/
theorem status_code_is_ignored (c : Client) (w1 w2 : World B R)
    (ips : List String) (s1 s2 : Nat) (body : B) (hne : ips ≠ [])
    (hslice : w1.DecodeSlice = w2.DecodeSlice)
    (hstruct : w1.DecodeStruct = w2.DecodeStruct)
    (h1 : w1.Get (requestURL c ips) = Except.ok ⟨s1, body⟩)
    (h2 : w2.Get (requestURL c ips) = Except.ok ⟨s2, body⟩) :
    (CheckBulk c w1 ips).responses = (CheckBulk c w2 ips).responses ∧
      (CheckBulk c w1 ips).err = (CheckBulk c w2 ips).err ∧
      (CheckBulk c w1 ips).trace = (CheckBulk c w2 ips).trace := by
  by_cases hlen : 1 < ips.length
  · rw [CheckBulk_many c w1 ips _ hlen h1, CheckBulk_many c w2 ips _ hlen h2,
      hslice]
    exact ⟨rfl, rfl, rfl⟩
  · obtain ⟨ip, rfl⟩ : ∃ ip, ips = [ip] := by
      match ips, hne, hlen with
      | [ip], _, _ => exact ⟨ip, rfl⟩
      | _ :: _ :: _, _, h => simp at h
    rw [CheckBulk_one c w1 ip _ h1, CheckBulk_one c w2 ip _ h2, hstruct]
    exact ⟨rfl, rfl, rfl⟩

/-- Witness of C9: the same object served with status 200 and with status
401. -/
theorem status_code_is_ignored_witness :
    (CheckBulk testClient
        (stubServer 200 (Body.json (JSON.object
          [("ip", JSON.string "1.2.3.4")]))) ["1.2.3.4"]).responses =
      (CheckBulk testClient
        (stubServer 401 (Body.json (JSON.object
          [("ip", JSON.string "1.2.3.4")]))) ["1.2.3.4"]).responses ∧
    (CheckBulk testClient
        (stubServer 200 (Body.json (JSON.object
          [("ip", JSON.string "1.2.3.4")]))) ["1.2.3.4"]).err =
      (CheckBulk testClient
        (stubServer 401 (Body.json (JSON.object
          [("ip", JSON.string "1.2.3.4")]))) ["1.2.3.4"]).err ∧
    (CheckBulk testClient
        (stubServer 200 (Body.json (JSON.object
          [("ip", JSON.string "1.2.3.4")]))) ["1.2.3.4"]).trace =
      (CheckBulk testClient
        (stubServer 401 (Body.json (JSON.object
          [("ip", JSON.string "1.2.3.4")]))) ["1.2.3.4"]).trace :=
  status_code_is_ignored testClient
    (stubServer 200 (Body.json (JSON.object [("ip", JSON.string "1.2.3.4")])))
    (stubServer 401 (Body.json (JSON.object [("ip", JSON.string "1.2.3.4")])))
    ["1.2.3.4"] 200 401
    (Body.json (JSON.object [("ip", JSON.string "1.2.3.4")]))
    (by decide) rfl rfl rfl rfl

/-- C10: for every IP and every remote whatsoever, `CheckBulk` on the
one-element list returns either an error or a list of exactly one record, so
`Check` never returns the error "check returned unexpected number of
results". -/
theorem unexpected_count_unreachable (c : Client) (w : World B R)
    (ip : String) :
    ((CheckBulk c w [ip]).err ≠ none ∨
        (CheckBulk c w [ip]).responses.length = 1) ∧
      (Check c w ip).err ≠ some (Error.errorf
        "ipstack: Client: check returned unexpected number of results") := by
  rcases hget : w.Get (requestURL c [ip]) with e | buf
  · have hb := CheckBulk_get_error c w [ip] e (by simp) hget
    simp [Check, hb]
  · have hb := CheckBulk_one c w ip buf hget
    rcases hd : (w.DecodeStruct buf.Body default).2 with _ | e
    · rw [hd] at hb
      simp [Check, hb]
    · rw [hd] at hb
      simp [Check, hb]

end Claims

end Ipstack
